import Mathlib

/-!
Verification of the E-Netra dynamic-content pipeline (content detection,
AI summarization, priority filtering, alert dispatch) against its
natural-language specification.  The JavaScript modules under `src/lib/`
are shallowly embedded as executable Lean definitions: class instance
state becomes explicit state records, strings are modelled as Lean
strings (all relevant data is ASCII, so JS UTF-16 `length`/`includes`
coincide with the character-level model), and JS floating-point rate and
similarity comparisons are modelled over `ℚ` (every comparison performed
by the code has the form p/q ⋈ k/10 with q ≤ a few hundred, where the
double-rounding error is orders of magnitude below the 1/(10·q) gap, and
the exact-tie cases round to the identical double on both sides, so the
rational model is exact).  Timestamps (`Date.now()`) are never read by
any of the logic below and are omitted from the records.
-/

namespace ENetra

/-! ### JS string primitives -/

/-- Model of JS `String.prototype.includes` (substring containment) on the
character-list view of a string. -/
def listContainsSeg (hay needle : List Char) : Bool :=
  needle.isPrefixOf hay ||
    match hay with
    | [] => false
    | _ :: t => listContainsSeg t needle

/-- JS `s.includes(sub)`. -/
def jsIncludes (s sub : String) : Bool :=
  listContainsSeg s.toList sub.toList

/-- JS `String.prototype.toLowerCase` restricted to ASCII data. -/
def jsToLower (s : String) : String :=
  String.mk (s.toList.map Char.toLower)

/-- JS `s.substring(0, n)` (with `n ≥ 0`). -/
def jsSubstring (s : String) : Nat → String :=
  fun n => String.mk (s.toList.take n)

/-- JS `s.startsWith(p)`. -/
def jsStartsWith (s p : String) : Bool :=
  p.toList.isPrefixOf s.toList

/-- Whitespace test for the `\s` regex class (ASCII range). -/
def isWsChar (c : Char) : Bool :=
  c = ' ' || c = '\t' || c = '\n' || c = '\r' || c = '\x0b' || c = '\x0c'

/-- JS `s.split(/\s+/)`: substrings between maximal whitespace runs, with an
empty leading (resp. trailing) element when the string starts (resp. ends)
with whitespace. -/
def jsSplitWs (s : String) : List String :=
  let parts := s.split (fun c => isWsChar c)
  match parts with
  | [] => [""]
  | [p] => [p]
  | p :: rest => p :: (rest.dropLast.filter (fun t => t ≠ "") ++ [rest.getLastD ""])

/-- JS `l.slice(-n)`: the last `min n l.length` elements. -/
def jsSliceLast {α : Type} (n : Nat) (l : List α) : List α :=
  l.drop (l.length - n)

/-! ### Summarization engine (`src/lib/ai-summarization.js`)

State of `AISummarizationModule` that the summarization output depends on:
only `options`.  (`contextHistory` is written by `_updateContextHistory`
and surfaces solely as `previousContext` in the built summarization
context, which `_simulateAISummarization` never reads, so it does not
influence any produced summary.) -/

/-- `options` of `AISummarizationModule` (constructor defaults). -/
structure SummOptions where
  maxSummaryLength : Nat := 150
  minContentLength : Nat := 20
  preserveContext : Bool := true
  localProcessingOnly : Bool := false
deriving DecidableEq

def defaultSummOptions : SummOptions := {}

/-- The `context` object attached to a change event by the content-detection
module.  Absent/empty JS fields are modelled by `""`/`false`. -/
structure ElemContext where
  role : String := ""
  label : String := ""
  isForm : Bool := false
  isInteractive : Bool := false
  isLiveRegion : Bool := false
  /-- `context.parentContext.section`; `none` models an absent
  `parentContext`/`section` (only the priority filter reads it, through
  optional chaining). -/
  parentSection : Option String := none
deriving DecidableEq

/-- The `content` field of a change event. -/
structure ChangeContent where
  text : String := ""
  html : String := ""
  old : String := ""
  new : String := ""
deriving DecidableEq

/-- A change event as consumed by the summarizer.  `type` is kept as a
string exactly like the JS tag (`'addition' | 'removal' | ... | 'group'`);
`context` is optional because the code guards on `changeData.context`. -/
structure ChangeData where
  type : String
  content : ChangeContent := {}
  context : Option ElemContext := none
deriving DecidableEq

/-- `_extractRelevantText`: prefer `content.new`, then `content.text`. -/
def extractRelevantText (cd : ChangeData) : String :=
  if cd.content.new.length > 0 then cd.content.new
  else if cd.content.text.length > 0 then cd.content.text
  else ""

/-- `changeData.context?.role || ''` -/
def ctxRole (cd : ChangeData) : String :=
  match cd.context with
  | none => ""
  | some c => c.role

/-- `changeData.context?.label || ''` -/
def ctxLabel (cd : ChangeData) : String :=
  match cd.context with
  | none => ""
  | some c => c.label

/-- `changeData.context?.isForm || false` -/
def ctxIsForm (cd : ChangeData) : Bool :=
  match cd.context with
  | none => false
  | some c => c.isForm

/-- `changeData.context?.isInteractive || false` -/
def ctxIsInteractive (cd : ChangeData) : Bool :=
  match cd.context with
  | none => false
  | some c => c.isInteractive

/-- `changeData.context?.isLiveRegion || false` -/
def ctxIsLiveRegion (cd : ChangeData) : Bool :=
  match cd.context with
  | none => false
  | some c => c.isLiveRegion

/-- `_determinePriority`: start at 5, sequential additive adjustments,
final clamp `Math.max(1, Math.min(10, priority))`. -/
def determinePriority (cd : ChangeData) (summary : String) : Int :=
  let priority : Int := 5
  let priority : Int :=
    match cd.context with
    | none => priority
    | some ctx =>
      let priority := if ctx.isLiveRegion then priority + 3 else priority
      let priority := if ctx.isInteractive then priority + 1 else priority
      let priority :=
        if ctx.isForm && (jsIncludes summary "error" || jsIncludes summary "Error")
        then priority + 3 else priority
      if ctx.role = "heading" then priority + 2 else priority
  let priority :=
    if jsIncludes summary "error" || jsIncludes summary "Error" ||
       jsIncludes summary "alert" || jsIncludes summary "Alert" ||
       jsIncludes summary "warning" || jsIncludes summary "Warning"
    then priority + 2 else priority
  let priority :=
    if cd.type = "addition" then priority + 1
    else if cd.type = "removal" then priority - 1
    else if cd.type = "group" then priority + 1
    else priority
  max 1 (min 10 priority)

/-- Spec-style view of the context-dependent additive adjustments of
`_determinePriority` (live region +3, interactive +1, form-with-error +3,
heading +2). -/
def ctxAdjustment (cd : ChangeData) (summary : String) : Int :=
  match cd.context with
  | none => 0
  | some ctx =>
    (if ctx.isLiveRegion then 3 else 0) +
    (if ctx.isInteractive then 1 else 0) +
    (if ctx.isForm && (jsIncludes summary "error" || jsIncludes summary "Error")
     then 3 else 0) +
    (if ctx.role = "heading" then 2 else 0)

/-- Keyword adjustment of `_determinePriority`: +2 when the summary contains
one of the six literal substrings `error/Error/alert/Alert/warning/Warning`. -/
def keywordAdjustment (summary : String) : Int :=
  if jsIncludes summary "error" || jsIncludes summary "Error" ||
     jsIncludes summary "alert" || jsIncludes summary "Alert" ||
     jsIncludes summary "warning" || jsIncludes summary "Warning"
  then 2 else 0

/-- Change-kind adjustment of `_determinePriority`. -/
def kindAdjustment (cd : ChangeData) : Int :=
  if cd.type = "addition" then 1
  else if cd.type = "removal" then -1
  else if cd.type = "group" then 1
  else 0

/-- Sum of all independent additive adjustments. -/
def priorityAdjustments (cd : ChangeData) (summary : String) : Int :=
  ctxAdjustment cd summary + keywordAdjustment summary + kindAdjustment cd

/-- The `roleMap` lookup in `_createDirectSummary`: `roleMap[context.role]
|| context.role`. -/
def roleMapLookup (role : String) : String :=
  if role = "button" then "Button"
  else if role = "link" then "Link"
  else if role = "checkbox" then "Checkbox"
  else if role = "radio" then "Radio button"
  else if role = "textbox" then "Text field"
  else if role = "combobox" then "Dropdown"
  else if role = "heading" then "Heading"
  else role

/-- Result record of the summarizer for one (possibly synthetic) change.
The JS object also carries `timestamp: Date.now()`, which no downstream
logic reads; it is omitted. -/
structure SummaryResult where
  original : ChangeData
  summary : String
  priority : Int
  isDirectSummary : Bool := false
deriving DecidableEq

/-- `_createDirectSummary`: template-based summary used when the extracted
text is below `minContentLength` (and as the failure fallback). -/
def createDirectSummary (cd : ChangeData) (text : String) : SummaryResult :=
  let summary := text
  let summary :=
    match cd.context with
    | none => summary
    | some ctx =>
      let summary :=
        if ctx.role ≠ "" then
          let roleName := roleMapLookup ctx.role
          if ctx.isInteractive then
            if cd.type = "addition" then roleName ++ " added: " ++ text
            else if cd.type = "removal" then roleName ++ " removed"
            else if cd.type = "text" then roleName ++ " updated to: " ++ text
            else if cd.type = "attribute" then roleName ++ " state changed: " ++ text
            else roleName ++ ": " ++ text
          else summary
        else summary
      let summary :=
        if ctx.isForm ∧ ctx.label ≠ "" then
          "Form field \"" ++ ctx.label ++ "\" updated to: " ++ text
        else summary
      if ctx.isLiveRegion then text else summary
  { original := cd, summary := summary,
    priority := determinePriority cd summary, isDirectSummary := true }

/-- `_generateLocalSummary` (rule-based path used when
`localProcessingOnly` is set).  The JS code dereferences
`changeData.context` without a guard here; in the pipeline every event
carries a context, and the optional accessors below agree with the JS on
all such inputs. -/
def generateLocalSummary (opts : SummOptions) (cd : ChangeData) (text : String) :
    String :=
  if text.length > opts.maxSummaryLength then
    jsSubstring text (opts.maxSummaryLength - 3) ++ "..."
  else
    if cd.type = "addition" then
      if ctxRole cd = "heading" then "New section: " ++ text
      else if ctxIsInteractive cd then
        "New " ++ (if ctxRole cd ≠ "" then ctxRole cd else "element") ++ " added: " ++ text
      else "New content: " ++ text
    else if cd.type = "removal" then "Content removed: " ++ text
    else if cd.type = "text" then
      if ctxIsForm cd then "Form updated: " ++ text
      else if ctxIsLiveRegion cd then text
      else "Updated: " ++ text
    else if cd.type = "attribute" then
      if jsStartsWith text "aria-" then "Accessibility state changed: " ++ text
      else "Element state changed: " ++ text
    else if cd.type = "group" then "Multiple updates: " ++ text
    else text

/-- `_simulateAISummarization` (the deterministic "AI" transform).  The
`context` argument built by `_buildSummarizationContext` is inlined via
the `ctx*` accessors (its `previousContext` component is never read). -/
def simulateAISummarization (opts : SummOptions) (text0 : String)
    (cd : ChangeData) : String :=
  let text :=
    if text0.length > opts.maxSummaryLength * 2 then
      jsSubstring text0 (opts.maxSummaryLength * 2)
    else text0
  let summary :=
    if cd.type = "addition" then
      if ctxIsLiveRegion cd then text
      else if ctxRole cd = "heading" then "New section: " ++ text
      else if ctxIsForm cd then
        "New form field added: " ++ (if ctxLabel cd ≠ "" then ctxLabel cd else text)
      else if ctxIsInteractive cd then
        "New " ++ (if ctxRole cd ≠ "" then ctxRole cd else "interactive element") ++
          " added: " ++ text
      else if jsIncludes text "error" || jsIncludes text "Error" ||
              jsIncludes text "failed" then
        "Error message: " ++ text
      else if text.length > 100 then
        "New content added: " ++ jsSubstring text 100 ++ "..."
      else "New content: " ++ text
    else if cd.type = "removal" then
      if ctxIsInteractive cd then
        (if ctxRole cd ≠ "" then ctxRole cd else "Element") ++ " removed"
      else "Content removed"
    else if cd.type = "text" then
      if ctxIsForm cd then
        let label := if ctxLabel cd ≠ "" then "\"" ++ ctxLabel cd ++ "\"" else ""
        "Form field " ++ label ++ " updated to: " ++ text
      else if ctxIsLiveRegion cd then text
      else if jsIncludes text "error" || jsIncludes text "Error" ||
              jsIncludes text "failed" then
        "Error message: " ++ text
      else "Updated content: " ++ text
    else if cd.type = "attribute" then
      if jsStartsWith text "aria-" then "Accessibility state changed: " ++ text
      else "Element state changed: " ++ text
    else if cd.type = "group" then
      "Multiple updates: " ++ jsSubstring text opts.maxSummaryLength
    else text
  if summary.length > opts.maxSummaryLength then
    jsSubstring summary (opts.maxSummaryLength - 3) ++ "..."
  else summary

/-- `_processSingleChange`: direct summary below `minContentLength`,
otherwise `_generateSummary` (local rule-based or simulated-AI transform;
neither can fail in the model, so the `catch` fallback is dead code). -/
def processSingleChange (opts : SummOptions) (cd : ChangeData) : SummaryResult :=
  let relevantText := extractRelevantText cd
  if relevantText.length < opts.minContentLength then
    createDirectSummary cd relevantText
  else
    let summary :=
      if opts.localProcessingOnly then generateLocalSummary opts cd relevantText
      else simulateAISummarization opts relevantText cd
    { original := cd, summary := summary,
      priority := determinePriority cd summary, isDirectSummary := false }

/-! ### Change observer (`src/lib/content-detection.js`) -/

/-- The `type` of a raw `MutationRecord` handed to the observer. -/
inductive MutationType
  | childList
  | attributes
  | characterData
deriving DecidableEq

/-- The parts of a raw mutation record that `_categorizeChangeType`
inspects: the record type and the sizes of `addedNodes`/`removedNodes`. -/
structure MutationRec where
  type : MutationType
  addedCount : Nat := 0
  removedCount : Nat := 0
deriving DecidableEq

/-- `hasAdditions`: some `childList` record in the group added nodes. -/
def groupHasAdditions (g : List MutationRec) : Bool :=
  g.any fun m => decide (m.type = MutationType.childList) && decide (0 < m.addedCount)

/-- `hasRemovals`: some `childList` record in the group removed nodes. -/
def groupHasRemovals (g : List MutationRec) : Bool :=
  g.any fun m => decide (m.type = MutationType.childList) && decide (0 < m.removedCount)

/-- `hasAttributeChanges`. -/
def groupHasAttributeChanges (g : List MutationRec) : Bool :=
  g.any fun m => decide (m.type = MutationType.attributes)

/-- `hasTextChanges` (`characterData` records). -/
def groupHasTextChanges (g : List MutationRec) : Bool :=
  g.any fun m => decide (m.type = MutationType.characterData)

/-- `_categorizeChangeType`: the if-chain over the four presence flags. -/
def categorizeChangeType (g : List MutationRec) : String :=
  if groupHasAdditions g ∧ ¬groupHasRemovals g then "addition"
  else if groupHasRemovals g ∧ ¬groupHasAdditions g then "removal"
  else if groupHasAdditions g ∧ groupHasRemovals g then "replacement"
  else if groupHasAttributeChanges g then "attribute"
  else if groupHasTextChanges g then "text"
  else "unknown"

/-- Classification as the specification's sentence literally reads
(`spec.md` §4.1 step 3): set membership over the record types present —
added-only, removed-only, both, attribute records only, character-data
records only, and anything else `unknown`.  Stated from the spec's words
for comparison against `categorizeChangeType`, which is translated from
the source. -/
def specCategorizeChangeType (g : List MutationRec) : String :=
  if groupHasAdditions g ∧ ¬groupHasRemovals g ∧ ¬groupHasAttributeChanges g ∧
     ¬groupHasTextChanges g then "addition"
  else if groupHasRemovals g ∧ ¬groupHasAdditions g ∧ ¬groupHasAttributeChanges g ∧
     ¬groupHasTextChanges g then "removal"
  else if groupHasAdditions g ∧ groupHasRemovals g then "replacement"
  else if groupHasAttributeChanges g ∧ ¬groupHasAdditions g ∧ ¬groupHasRemovals g ∧
     ¬groupHasTextChanges g then "attribute"
  else if groupHasTextChanges g ∧ ¬groupHasAdditions g ∧ ¬groupHasRemovals g ∧
     ¬groupHasAttributeChanges g then "text"
  else "unknown"

/-- `_notifyChangeListeners`: a listener is modelled as a function that
either returns normally (`Except.ok`) or throws (`Except.error`).  The
returned list records, in order, each invocation's outcome (an error
entry means the listener threw and the `catch` clause logged it); the
outer `Except` is where an exception escaping the per-listener `try`
would surface. -/
def notifyChangeListeners {α ε : Type} :
    List (α → Except ε Unit) → α → Except ε (List (Except ε Unit))
  | [], _ => Except.ok []
  | l :: rest, changes =>
    -- try { listener(changes) } catch (error) { console.error(...) }:
    -- the outcome is recorded and iteration continues unconditionally.
    match notifyChangeListeners rest changes with
    | Except.ok tail => Except.ok (l changes :: tail)
    | Except.error e => Except.error e

/-! ### Alert dispatcher (`src/lib/alert-system.js`) -/

/-- An alert as passed to `showAlert` by the content script. -/
structure AlertData where
  summary : String := ""
  priority : Int := 5
  contentType : String := "text"
deriving DecidableEq

/-- The dispatcher options relevant to queuing (constructor defaults). -/
structure AlertOptions where
  queueAlerts : Bool := true
  maxQueueSize : Nat := 10
deriving DecidableEq

/-- Queue-visible state of `AlertSystemModule`. -/
structure AlertState where
  options : AlertOptions := {}
  alertQueue : List AlertData := []
deriving DecidableEq

/-- The queue mutation performed by `showAlert` when `queueAlerts` is on:
`push`, then `shift` if the size bound is exceeded.  (The subsequent
`_processAlertQueue` kick-off only dequeues; it is modelled by
`drainOrder`.) -/
def showAlertEnqueue (st : AlertState) (a : AlertData) : AlertState :=
  if st.options.queueAlerts then
    let q := st.alertQueue ++ [a]
    let q := if st.options.maxQueueSize < q.length then q.tail else q
    { st with alertQueue := q }
  else st

/-- The `while` loop of `_processAlertQueue`: repeatedly `shift` the
front alert and render it.  The result is the order in which the queued
alerts are rendered. -/
def drainOrder : List AlertData → List AlertData
  | [] => []
  | a :: rest => a :: drainOrder rest

/-! ### Preference filter (`src/lib/priority-filtering.js`)

`PriorityFilteringModule` instance state is the explicit `FilterState`
record below.  The filtering and learning functions operate on states
whose global preferences carry all seven content-type entries — the
shape the constructor establishes and the in-place learning pass
preserves.  `initializePreferences`, which must handle arbitrary
persisted objects (possibly missing keys), is modelled separately on a
raw-object representation at the end of this section. -/

/-- One `contentTypePreferences` entry. -/
structure CatPref where
  enabled : Bool
  minPriority : Int
deriving DecidableEq

/-- A full `contentTypePreferences` object with all seven categories
present. -/
structure CTPrefs where
  text : CatPref
  form : CatPref
  error : CatPref
  navigation : CatPref
  media : CatPref
  chat : CatPref
  advertisement : CatPref
deriving DecidableEq

/-- JS property access `ctp[key]` on a full `contentTypePreferences`
object (`none` for a key outside the seven categories). -/
def CTPrefs.get (c : CTPrefs) (k : String) : Option CatPref :=
  if k = "text" then some c.text
  else if k = "form" then some c.form
  else if k = "error" then some c.error
  else if k = "navigation" then some c.navigation
  else if k = "media" then some c.media
  else if k = "chat" then some c.chat
  else if k = "advertisement" then some c.advertisement
  else none

/-- A possibly-partial `contentTypePreferences` object (site overrides and
persisted objects may carry any subset of the seven keys). -/
structure CTPOverrides where
  text : Option CatPref := none
  form : Option CatPref := none
  error : Option CatPref := none
  navigation : Option CatPref := none
  media : Option CatPref := none
  chat : Option CatPref := none
  advertisement : Option CatPref := none
deriving DecidableEq

/-- The key-by-key merge
`{...global.contentTypePreferences, ...(site.contentTypePreferences || {})}`. -/
def mergeCTP (g : CTPrefs) (o : Option CTPOverrides) : CTPrefs :=
  match o with
  | none => g
  | some p =>
    { text := p.text.getD g.text
      form := p.form.getD g.form
      error := p.error.getD g.error
      navigation := p.navigation.getD g.navigation
      media := p.media.getD g.media
      chat := p.chat.getD g.chat
      advertisement := p.advertisement.getD g.advertisement }

/-- `userPreferences.global` in its well-formed shape. -/
structure GlobalPrefs where
  priorityThreshold : Int
  contentTypePreferences : CTPrefs
deriving DecidableEq

/-- A site-specific override object (shallow-merged onto global). -/
structure SitePrefs where
  priorityThreshold : Option Int := none
  contentTypePreferences : Option CTPOverrides := none
deriving DecidableEq

/-- `options` of `PriorityFilteringModule` (constructor defaults). -/
structure FilterOptions where
  defaultPriorityThreshold : Int := 5
  enableLearning : Bool := true
  siteSpecificSettings : Bool := true
deriving DecidableEq

/-- One entry of `interactionHistory` (the stored `timestamp` is never
read and is omitted). -/
structure InteractionRecord where
  summary : String
  contentType : String
  priority : Option Int
  interaction : String
deriving DecidableEq

/-- The mutable state of a `PriorityFilteringModule` instance. -/
structure FilterState where
  options : FilterOptions := {}
  global : GlobalPrefs
  sites : List (String × SitePrefs) := []
  interactionHistory : List InteractionRecord := []
deriving DecidableEq

/-- `this.maxHistoryItems = 100` — a constant set by the constructor and
never reassigned. -/
def maxHistoryItems : Nat := 100

/-- The constructor's default `contentTypePreferences`. -/
def defaultCTPrefs : CTPrefs :=
  { text := ⟨true, 5⟩
    form := ⟨true, 6⟩
    error := ⟨true, 3⟩
    navigation := ⟨true, 7⟩
    media := ⟨true, 8⟩
    chat := ⟨true, 4⟩
    advertisement := ⟨false, 10⟩ }

/-- The state of a freshly constructed `PriorityFilteringModule` with
default options. -/
def defaultFilterState : FilterState :=
  { global := { priorityThreshold := 5, contentTypePreferences := defaultCTPrefs } }

/-- Helper for `extractDomain`: drop everything through the first
occurrence of `needle`, or `none` when it does not occur. -/
def dropThroughSeg (hay needle : List Char) : Option (List Char) :=
  if needle.isPrefixOf hay then some (hay.drop needle.length)
  else
    match hay with
    | [] => none
    | _ :: t => dropThroughSeg t needle

/-- `_extractDomain`: the code delegates to the host runtime's `URL`
parser (`new URL(url).hostname`) and returns the raw string when parsing
throws.  URL parsing is an external capability; the model reads the text
between the first `://` and the following delimiter and otherwise
returns the string unchanged.  No claim below depends on the exact
parse: the domain is only used as a key into `sites`. -/
def extractDomain (url : String) : String :=
  match dropThroughSeg url.toList "://".toList with
  | some rest =>
    String.mk (rest.takeWhile fun c => c ≠ '/' && c ≠ ':' && c ≠ '?' && c ≠ '#')
  | none => url

/-- The change object consumed by the filter (a summarizer result:
`summary`, `priority`, `original` change, plus a possible bare
`context`). -/
structure FChange where
  summary : String := ""
  priority : Option Int := none
  original : Option ChangeData := none
  context : Option ElemContext := none
deriving DecidableEq

/-- `change.original?.context || change.context || {}` -/
def filterCtx (c : FChange) : ElemContext :=
  match c.original with
  | some o =>
    match o.context with
    | some ctx => ctx
    | none => c.context.getD {}
  | none => c.context.getD {}

/-- `_determineContentType`: fixed-precedence classification into one of
the seven category names. -/
def determineContentType (change : FChange) : String :=
  let summary := change.summary
  let lowerSummary := jsToLower summary
  if jsIncludes lowerSummary "error" || jsIncludes lowerSummary "warning" ||
     jsIncludes lowerSummary "alert" then "error"
  else
    let context := filterCtx change
    if context.isForm then "form"
    else if context.role = "navigation" ∨ context.role = "link" ∨
            context.role = "button" then "navigation"
    else if context.role = "img" ∨ context.role = "video" ∨
            context.role = "audio" then "media"
    else if jsIncludes summary "message" ||
            (match context.parentSection with
             | some s => jsIncludes (jsToLower s) "chat" || jsIncludes (jsToLower s) "message"
             | none => false) then "chat"
    else if jsIncludes lowerSummary "ad" || jsIncludes lowerSummary "sponsor" ||
            (match context.parentSection with
             | some s => jsIncludes (jsToLower s) "ad" || jsIncludes (jsToLower s) "sponsor"
             | none => false) then "advertisement"
    else "text"

/-- `_calculateSimilarity`: exact match, substring-containment ratio, or
fraction of shared words longer than 3 characters.  The JS float result
is modelled in `ℚ` (see the header note on float fidelity); the
quotients `x / y` are spelled `mkRat x y`, which `ratio_eq_div` below
proves equal to `(x : ℚ) / y` (the `/` spelling is avoided only because
`Rat.inv` is irreducible in this toolchain and would block kernel
evaluation of concrete instances). -/
def calculateSimilarity (str1 str2 : String) : ℚ :=
  if str1 = str2 then 1
  else if str1.length = 0 ∨ str2.length = 0 then 0
  else
    let s1 := jsToLower str1
    let s2 := jsToLower str2
    if jsIncludes s1 s2 || jsIncludes s2 s1 then
      mkRat (min s1.length s2.length) (max s1.length s2.length)
    else
      let words1 := jsSplitWs s1
      let words2 := jsSplitWs s2
      let matchCount :=
        (words1.filter fun w => decide (3 < w.length) && words2.contains w).length
      mkRat matchCount (max words1.length words2.length)

/-- `_isDuplicate`: exact or >0.8-similar match against the last 5
entries of `interactionHistory`. -/
def isDuplicate (s : FilterState) (change : FChange) : Bool :=
  if change.summary = "" then false
  else
    (jsSliceLast 5 s.interactionHistory).any fun item =>
      decide (item.summary = change.summary) ||
        decide (mkRat 4 5 < calculateSimilarity item.summary change.summary)

/-- `_shouldFilterByRules`: short non-error content, or duplicate. -/
def shouldFilterByRules (s : FilterState) (change : FChange)
    (contentType : String) : Bool :=
  (decide (contentType ≠ "error") && decide (change.summary ≠ "") &&
    decide (change.summary.length < 3)) ||
  isDuplicate s change

/-- `_getApplicablePreferences`: global, or site override shallow-merged
onto global with `contentTypePreferences` merged key-by-key. -/
def getApplicablePreferences (s : FilterState) (siteUrl : String) : GlobalPrefs :=
  if siteUrl = "" ∨ ¬s.options.siteSpecificSettings then s.global
  else
    match s.sites.lookup (extractDomain siteUrl) with
    | none => s.global
    | some site =>
      { priorityThreshold := site.priorityThreshold.getD s.global.priorityThreshold
        contentTypePreferences :=
          mergeCTP s.global.contentTypePreferences site.contentTypePreferences }

/-- `change.priority || 5` (JS `||`: `0`/missing fall back to 5). -/
def jsOrPriority : Option Int → Int
  | none => 5
  | some v => if v = 0 then 5 else v

/-- `_filterSingleChange`: enabled-category, priority-threshold and
rule checks; `null` is `none`. -/
def filterSingleChange (s : FilterState) (change : FChange)
    (siteUrl : String) : Option FChange :=
  let preferences := getApplicablePreferences s siteUrl
  let contentType := determineContentType change
  let typePrefs :=
    (preferences.contentTypePreferences.get contentType).getD
      preferences.contentTypePreferences.text
  if ¬typePrefs.enabled then none
  else
    let priority := jsOrPriority change.priority
    let threshold := max typePrefs.minPriority preferences.priorityThreshold
    if priority < threshold then none
    else if shouldFilterByRules s change contentType then none
    else some change

/-- `filterChanges`: the public entry point.  The method body contains no
assignment to instance state, so its state-passing embedding returns the
state it was given alongside the accept/reject result. -/
def filterChanges (s : FilterState) (changes : FChange ⊕ List FChange)
    (siteUrl : String) : Option (FChange ⊕ List FChange) × FilterState :=
  match changes with
  | Sum.inr arr =>
    let filtered := arr.filterMap fun c => filterSingleChange s c siteUrl
    (if 0 < filtered.length then some (Sum.inr filtered) else none, s)
  | Sum.inl c => ((filterSingleChange s c siteUrl).map Sum.inl, s)

/-- Count of `recentInteractions` entries of content type `ty` with the
given interaction kind (`typeInteractions[ty][kind]`). -/
def interactionCountFor (recent : List InteractionRecord) (ty kind : String) : Nat :=
  (recent.filter fun it =>
    decide (it.contentType = ty) && decide (it.interaction = kind)).length

/-- `typeInteractions[ty].total`. -/
def interactionTotalFor (recent : List InteractionRecord) (ty : String) : Nat :=
  (recent.filter fun it => decide (it.contentType = ty)).length

/-- The per-category body of the `_updatePreferencesFromInteractions`
loop.  The click-rate branch reads the `minPriority` already bumped by
the dismiss-rate branch, exactly as the in-place JS mutation does.
Rates `counts.x / counts.total` are spelled `mkRat x total` (equal to
the quotient by `ratio_eq_div`). -/
def updateCatFromInteractions (recent : List InteractionRecord) (ty : String)
    (p : CatPref) : CatPref :=
  let total := interactionTotalFor recent ty
  if total < 3 then p
  else
    let dismissed := interactionCountFor recent ty "dismissed"
    let clicked := interactionCountFor recent ty "clicked"
    let p :=
      if mkRat 7 10 < mkRat dismissed total then
        { p with minPriority := min 10 (p.minPriority + 1) }
      else p
    if mkRat 3 10 < mkRat clicked total then
      { p with minPriority := max 1 (p.minPriority - 1) }
    else p

/-- `_updatePreferencesFromInteractions`.  The JS `for ... of
Object.entries(typeInteractions)` loop visits only the categories present
in the recent window and touches, per category, only that category's own
entry; a category with no recent interactions has `total = 0 < 3` and is
left unchanged by the body below, so applying the body to all seven
fields simultaneously is exactly the loop's result. -/
def updatePreferencesFromInteractions (s : FilterState) : FilterState :=
  if s.interactionHistory.length < 10 then s
  else
    let recent := jsSliceLast 20 s.interactionHistory
    let ctp := s.global.contentTypePreferences
    { s with
      global :=
        { s.global with
          contentTypePreferences :=
            { text := updateCatFromInteractions recent "text" ctp.text
              form := updateCatFromInteractions recent "form" ctp.form
              error := updateCatFromInteractions recent "error" ctp.error
              navigation := updateCatFromInteractions recent "navigation" ctp.navigation
              media := updateCatFromInteractions recent "media" ctp.media
              chat := updateCatFromInteractions recent "chat" ctp.chat
              advertisement :=
                updateCatFromInteractions recent "advertisement" ctp.advertisement } } }

/-- `recordInteraction`: append to the bounded history and run the
learning pass. -/
def recordInteraction (s : FilterState) (change : FChange)
    (interaction : String) : FilterState :=
  if ¬s.options.enableLearning then s
  else
    let hist :=
      s.interactionHistory ++
        [{ summary := change.summary
           contentType := determineContentType change
           priority := change.priority
           interaction := interaction }]
    let hist := if maxHistoryItems < hist.length then hist.tail else hist
    updatePreferencesFromInteractions { s with interactionHistory := hist }

/-- Fold `recordInteraction` over a list of (change, interaction kind)
pairs, i.e. a sequence of `recordInteraction` calls. -/
def recordInteractions (s : FilterState)
    (l : List (FChange × String)) : FilterState :=
  l.foldl (fun s p => recordInteraction s p.1 p.2) s

/-! #### Raw persisted-preferences objects and `initializePreferences`

`initializePreferences` receives an opaque object from storage whose
keys may be any subset of `{global, sites}`, where a present `global`
may itself lack keys.  The raw-object representation below mirrors that
with `Option` fields; the module's own initial `userPreferences` has
every field present. -/

/-- A raw `global` preferences object (possibly missing keys). -/
structure JSGlobalPrefs where
  priorityThreshold : Option Int := none
  contentTypePreferences : Option CTPOverrides := none
deriving DecidableEq

/-- A raw `userPreferences` object. -/
structure JSUserPreferences where
  global : JSGlobalPrefs
  sites : List (String × SitePrefs) := []
deriving DecidableEq

/-- A persisted preferences object handed to `initializePreferences`
(top-level keys may be absent). -/
structure StoredPreferences where
  global : Option JSGlobalPrefs := none
  sites : Option (List (String × SitePrefs)) := none
deriving DecidableEq

/-- The default `contentTypePreferences` as a raw object (all seven keys
present). -/
def defaultCTPOverrides : CTPOverrides :=
  { text := some defaultCTPrefs.text
    form := some defaultCTPrefs.form
    error := some defaultCTPrefs.error
    navigation := some defaultCTPrefs.navigation
    media := some defaultCTPrefs.media
    chat := some defaultCTPrefs.chat
    advertisement := some defaultCTPrefs.advertisement }

/-- The constructor's `userPreferences` as a raw object. -/
def defaultJSUserPreferences : JSUserPreferences :=
  { global :=
      { priorityThreshold := some 5
        contentTypePreferences := some defaultCTPOverrides } }

/-- `initializePreferences(storedPreferences)`: a guard on a falsy
argument, then the top-level spread
`{...this.userPreferences, ...storedPreferences}` — a key present in
`stored` replaces the current value wholesale, an absent key keeps it. -/
def initializePreferences (cur : JSUserPreferences)
    (stored : Option StoredPreferences) : JSUserPreferences :=
  match stored with
  | none => cur
  | some sp => { global := sp.global.getD cur.global, sites := sp.sites.getD cur.sites }

/-! ## Shared helper lemmas -/

/-- `mkRat n d` is the rational quotient `n / d`, so the `mkRat`
spellings in `calculateSimilarity`, `isDuplicate` and
`updateCatFromInteractions` are the source's divisions. -/
theorem ratio_eq_div (n d : Nat) : (mkRat n d : ℚ) = (n : ℚ) / (d : ℚ) := by
  rw [Rat.mkRat_eq_div]; norm_num

set_option maxHeartbeats 1600000 in
/-- The sequential accumulation in `_determinePriority` equals the
one-shot clamp of 5 plus the independent additive adjustments. -/
theorem determinePriority_eq_clamp (cd : ChangeData) (summary : String) :
    determinePriority cd summary =
      max 1 (min 10 (5 + priorityAdjustments cd summary)) := by
  rcases cd with ⟨ty, content, ctx⟩
  cases ctx <;>
    simp only [determinePriority, priorityAdjustments, ctxAdjustment,
      keywordAdjustment, kindAdjustment] <;>
    split_ifs <;> omega

/-- The learning pass never changes the interaction history. -/
theorem updatePrefs_preserves_history (s : FilterState) :
    (updatePreferencesFromInteractions s).interactionHistory =
      s.interactionHistory := by
  unfold updatePreferencesFromInteractions
  split <;> rfl

/-- The last element of a list is always inside its `slice(-n)` window
for `n ≥ 1`. -/
theorem mem_sliceLast_append_last {α : Type} (n : Nat) (hn : 0 < n)
    (h : List α) (r : α) : r ∈ jsSliceLast n (h ++ [r]) := by
  unfold jsSliceLast
  have hlen : (h ++ [r]).length = h.length + 1 := by simp
  rw [hlen]
  have hle : h.length + 1 - n ≤ h.length := by omega
  rw [List.drop_append_of_le_length hle]
  exact List.mem_append_right _ (List.mem_singleton.mpr rfl)

/-! ## Claim C2 -/

/-- Claim C2 (confirmed).  For every change event — any context (including a
missing one), any role, summary text and kind — `_determinePriority`
produces an integer in [1,10], and it equals the single final clamp of
the base value 5 plus the independent additive adjustments
(`priorityAdjustments`). -/
theorem priority_score_clamped_in_range (cd : ChangeData) (summary : String) :
    determinePriority cd summary =
        max 1 (min 10 (5 + priorityAdjustments cd summary)) ∧
      1 ≤ determinePriority cd summary ∧ determinePriority cd summary ≤ 10 := by
  refine ⟨determinePriority_eq_clamp cd summary, ?_, ?_⟩ <;>
    rw [determinePriority_eq_clamp cd summary]
  · exact le_max_left 1 _
  · exact max_le (by norm_num) (min_le_left 10 _)

/-! ## Claim C5 -/

/-- Claim C5 (counterexample).  The claim says the +2 keyword adjustment is
case-insensitive.  The summary `"ERROR"` matches the error keywords
case-insensitively, yet `_determinePriority` scores it 5 (no
adjustment), while the lowercase `"error"` scores 7: the code's
`includes` checks are case-sensitive and cover only the
lowercase/capitalized spellings. -/
theorem keyword_case_insensitive_counterexample :
    jsIncludes (jsToLower "ERROR") "error" = true ∧
      determinePriority { type := "text" } "ERROR" = 5 ∧
      determinePriority { type := "text" } "error" = 7 := by
  refine ⟨by decide, by decide, by decide⟩

/-- Claim C5 (corrected).  Whenever the summary contains one of the six exact
substrings `error/Error/alert/Alert/warning/Warning`, the priority is
the clamp of 5 plus the other adjustments plus 2; other casings (such as
`ERROR`) receive no keyword adjustment. -/
theorem keyword_adjustment_exact_casing (cd : ChangeData) (summary : String)
    (h : (jsIncludes summary "error" || jsIncludes summary "Error" ||
          jsIncludes summary "alert" || jsIncludes summary "Alert" ||
          jsIncludes summary "warning" || jsIncludes summary "Warning") = true) :
    determinePriority cd summary =
      max 1 (min 10 (5 + ctxAdjustment cd summary + 2 + kindAdjustment cd)) := by
  rw [determinePriority_eq_clamp cd summary]
  unfold priorityAdjustments keywordAdjustment
  rw [if_pos h]
  ring_nf

/-- Witness for `keyword_adjustment_exact_casing` at the summary
`"error"` on a context-free `text` change. -/
theorem keyword_adjustment_exact_casing_witness :
    ((jsIncludes "error" "error" || jsIncludes "error" "Error" ||
      jsIncludes "error" "alert" || jsIncludes "error" "Alert" ||
      jsIncludes "error" "warning" || jsIncludes "error" "Warning") = true) ∧
      determinePriority { type := "text" } "error" =
        max 1 (min 10 (5 + ctxAdjustment { type := "text" } "error" + 2 +
          kindAdjustment { type := "text" })) :=
  ⟨by decide, keyword_adjustment_exact_casing { type := "text" } "error" (by decide)⟩

/-! ## Claim C4 -/

/-- Claim C4 (counterexample).  An `addition` event with role `heading` and
extracted text `"Breaking News"` is summarized as `"Breaking News"`, not
as `"New section: Breaking News"`: 13 characters is below the default
`minContentLength` of 20, so `_processSingleChange` takes the
direct-summary path, which leaves the text untouched for a
non-interactive element (the `"New section: …"` template lives in the
generative paths, which are only reached at ≥ 20 characters). -/
theorem heading_addition_counterexample :
    (processSingleChange defaultSummOptions
        { type := "addition",
          content := { text := "Breaking News", new := "Breaking News" },
          context := some { role := "heading" } }).summary = "Breaking News" ∧
      (processSingleChange defaultSummOptions
        { type := "addition",
          content := { text := "Breaking News", new := "Breaking News" },
          context := some { role := "heading" } }).summary ≠
        "New section: Breaking News" := by
  refine ⟨by decide, by decide⟩

/-- Claim C4 (corrected).  For every `addition` event whose context role is
`heading` (non-interactive, non-form) and whose extracted text is
`"Breaking News"`, the engine with default options produces the summary
`"Breaking News"` via the direct-summary path. -/
theorem heading_addition_direct_summary (cd : ChangeData) (ctx : ElemContext)
    (hctx : cd.context = some ctx) (_hty : cd.type = "addition")
    (hrole : ctx.role = "heading") (hint : ctx.isInteractive = false)
    (hform : ctx.isForm = false)
    (htext : extractRelevantText cd = "Breaking News") :
    (processSingleChange defaultSummOptions cd).summary = "Breaking News" := by
  have hlt : (extractRelevantText cd).length < defaultSummOptions.minContentLength := by
    rw [htext]; decide
  simp only [processSingleChange]
  rw [if_pos hlt]
  simp only [createDirectSummary, hctx, htext]
  cases hlive : ctx.isLiveRegion <;>
    simp [hrole, hint, hform, hlive]

/-- Witness for `heading_addition_direct_summary` at the concrete
Breaking-News event. -/
theorem heading_addition_direct_summary_witness :
    (extractRelevantText
        { type := "addition",
          content := { text := "Breaking News", new := "Breaking News" },
          context := some { role := "heading" } } = "Breaking News") ∧
      (processSingleChange defaultSummOptions
        { type := "addition",
          content := { text := "Breaking News", new := "Breaking News" },
          context := some { role := "heading" } }).summary = "Breaking News" :=
  ⟨by decide,
    heading_addition_direct_summary _ { role := "heading" } rfl rfl rfl rfl rfl
      (by decide)⟩

/-! ## Claim C6 -/

/-- Claim C6 (counterexample).  The claim classifies by set membership over the
record types present, with `anything else → unknown`.  A group holding
one attribute record and one character-data record is neither
attribute-records-only nor character-data-only, so the claim's
classification is `unknown` — but `_categorizeChangeType` returns
`attribute`, because its if-chain tests attribute presence before
falling through. -/
theorem classification_set_membership_counterexample :
    categorizeChangeType
        [⟨MutationType.attributes, 0, 0⟩, ⟨MutationType.characterData, 0, 0⟩] =
      "attribute" ∧
    specCategorizeChangeType
        [⟨MutationType.attributes, 0, 0⟩, ⟨MutationType.characterData, 0, 0⟩] =
      "unknown" ∧
    categorizeChangeType
        [⟨MutationType.attributes, 0, 0⟩, ⟨MutationType.characterData, 0, 0⟩] ≠
      specCategorizeChangeType
        [⟨MutationType.attributes, 0, 0⟩, ⟨MutationType.characterData, 0, 0⟩] := by
  refine ⟨by decide, by decide, by decide⟩

/-- Claim C6 (corrected).  `_categorizeChangeType` assigns exactly one kind by
a precedence chain over the presence flags: additions without removals →
`addition`, removals without additions → `removal`, both → `replacement`
(never a separate addition and removal), otherwise any attribute record
→ `attribute`, otherwise any character-data record → `text`, and nothing
at all → `unknown`.  The claim's pure set-membership cases
"attribute-records-only" and "character-data-records-only" are special
cases of the two `otherwise` clauses; the correction is that mixed
non-childList groups resolve by this precedence rather than to
`unknown`. -/
theorem classification_precedence (g : List MutationRec) :
    (categorizeChangeType g = "addition" ∨ categorizeChangeType g = "removal" ∨
     categorizeChangeType g = "replacement" ∨ categorizeChangeType g = "attribute" ∨
     categorizeChangeType g = "text" ∨ categorizeChangeType g = "unknown") ∧
    (groupHasAdditions g = true → groupHasRemovals g = false →
      categorizeChangeType g = "addition") ∧
    (groupHasRemovals g = true → groupHasAdditions g = false →
      categorizeChangeType g = "removal") ∧
    (groupHasAdditions g = true → groupHasRemovals g = true →
      categorizeChangeType g = "replacement") ∧
    (groupHasAdditions g = false → groupHasRemovals g = false →
      groupHasAttributeChanges g = true → categorizeChangeType g = "attribute") ∧
    (groupHasAdditions g = false → groupHasRemovals g = false →
      groupHasAttributeChanges g = false → groupHasTextChanges g = true →
      categorizeChangeType g = "text") ∧
    (groupHasAdditions g = false → groupHasRemovals g = false →
      groupHasAttributeChanges g = false → groupHasTextChanges g = false →
      categorizeChangeType g = "unknown") := by
  cases hA : groupHasAdditions g <;> cases hR : groupHasRemovals g <;>
    cases hAt : groupHasAttributeChanges g <;> cases hT : groupHasTextChanges g <;>
      simp [categorizeChangeType, hA, hR, hAt, hT]

/-- Witness for `classification_precedence`: an added-only group is an
`addition` and an attribute-only group is an `attribute`. -/
theorem classification_precedence_witness :
    (groupHasAdditions [⟨MutationType.childList, 1, 0⟩] = true ∧
      categorizeChangeType [⟨MutationType.childList, 1, 0⟩] = "addition") ∧
    (groupHasAttributeChanges [⟨MutationType.attributes, 0, 0⟩] = true ∧
      categorizeChangeType [⟨MutationType.attributes, 0, 0⟩] = "attribute") :=
  ⟨⟨by decide,
      (classification_precedence [⟨MutationType.childList, 1, 0⟩]).2.1
        (by decide) (by decide)⟩,
    ⟨by decide,
      (classification_precedence [⟨MutationType.attributes, 0, 0⟩]).2.2.2.2.1
        (by decide) (by decide) (by decide)⟩⟩

/-! ## Claim C9 -/

/-- Claim C9 (confirmed).  `_notifyChangeListeners` returns normally
(`Except.ok`, never a propagated exception) and its invocation record is
exactly one application of every registered listener, in order, to the
same batch — so a listener that throws (an `Except.error` entry, caught
and logged by the per-listener `catch`) does not prevent any later
listener from being invoked with that batch. -/
theorem listener_errors_isolated {α ε : Type}
    (listeners : List (α → Except ε Unit)) (changes : α) :
    notifyChangeListeners listeners changes =
      Except.ok (listeners.map fun l => l changes) := by
  induction listeners with
  | nil => rfl
  | cons l rest ih =>
    simp [notifyChangeListeners, ih]

/-! ## Claim C8 -/

/-- Claim C8 (confirmed).  With queueing enabled: any sequence of `showAlert`
calls keeps the pending queue at or below `maxQueueSize` (default 10,
and the options themselves are untouched); a `showAlert` against a full
queue drops exactly the oldest pending alert before appending the new
one; and `_processAlertQueue` renders the queued alerts strictly in FIFO
order. -/
theorem alert_queue_bounded_fifo (st : AlertState) (as : List AlertData)
    (hq : st.options.queueAlerts = true)
    (hlen : st.alertQueue.length ≤ st.options.maxQueueSize) :
    ((as.foldl showAlertEnqueue st).alertQueue.length ≤ st.options.maxQueueSize ∧
      (as.foldl showAlertEnqueue st).options = st.options) ∧
    (∀ (st' : AlertState) (a : AlertData), st'.options.queueAlerts = true →
      0 < st'.options.maxQueueSize →
      st'.alertQueue.length = st'.options.maxQueueSize →
      (showAlertEnqueue st' a).alertQueue = st'.alertQueue.tail ++ [a]) ∧
    (∀ q : List AlertData, drainOrder q = q) := by
  refine ⟨?_, ?_, ?_⟩
  · clear hq
    induction as generalizing st with
    | nil => exact ⟨hlen, rfl⟩
    | cons a rest ih =>
      have hstep :
          (showAlertEnqueue st a).alertQueue.length ≤
              (showAlertEnqueue st a).options.maxQueueSize ∧
            (showAlertEnqueue st a).options = st.options := by
        unfold showAlertEnqueue
        split
        · dsimp only
          constructor
          · split <;> simp_all
          · rfl
        · exact ⟨hlen, rfl⟩
      have := ih (showAlertEnqueue st a) (hstep.2 ▸ hstep.1)
      simpa [List.foldl_cons, hstep.2] using this
  · intro st' a hq' hpos hfull
    unfold showAlertEnqueue
    rw [if_pos hq']
    dsimp only
    have hlen' : st'.options.maxQueueSize < (st'.alertQueue ++ [a]).length := by
      simp [hfull]
    rw [if_pos hlen']
    rcases hne : st'.alertQueue with _ | ⟨b, t⟩
    · rw [hne] at hfull; simp at hfull; omega
    · simp
  · intro q
    induction q with
    | nil => rfl
    | cons a rest ih => simp [drainOrder, ih]

/-- Witness for `alert_queue_bounded_fifo`: twelve insertions into a
fresh default dispatcher stay within the capacity of 10, a full queue
evicts its head, and a concrete queue drains in order. -/
theorem alert_queue_bounded_fifo_witness :
    (((List.replicate 12 ({} : AlertData)).foldl showAlertEnqueue
        {}).alertQueue.length ≤ ({} : AlertState).options.maxQueueSize) ∧
    ((showAlertEnqueue
        { alertQueue := List.replicate 10 ({} : AlertData) }
        { summary := "new" }).alertQueue =
      (List.replicate 10 ({} : AlertData)).tail ++ [{ summary := "new" }]) ∧
    (drainOrder [{ summary := "a" }, { summary := "b" }] =
      [{ summary := "a" }, { summary := "b" }]) :=
  ⟨((alert_queue_bounded_fifo {} (List.replicate 12 {}) rfl (by decide)).1).1,
    (alert_queue_bounded_fifo
        { alertQueue := List.replicate 10 ({} : AlertData) } [] rfl
        (by decide)).2.1
      { alertQueue := List.replicate 10 ({} : AlertData) } { summary := "new" }
      rfl (by decide) (by decide),
    (alert_queue_bounded_fifo {} [] rfl (by decide)).2.2
      [{ summary := "a" }, { summary := "b" }]⟩

/-! ## Claim C1 -/

/-- Claim C1 (counterexample).  Two summaries with identical text submitted in
sequence with no other state change are both accepted: on a fresh
default filter, `"Server error alert"` (priority 9) passes
`filterChanges`, the call leaves the state unchanged, and the identical
second submission passes again — two delivered alerts.  `_isDuplicate`
compares against the last five entries of `interactionHistory`, which
only `recordInteraction` fills; delivery alone records nothing. -/
theorem duplicate_rejection_counterexample :
    (filterChanges defaultFilterState
        (Sum.inl { summary := "Server error alert", priority := some 9 }) "").1 =
      some (Sum.inl { summary := "Server error alert", priority := some 9 }) ∧
    (filterChanges defaultFilterState
        (Sum.inl { summary := "Server error alert", priority := some 9 }) "").2 =
      defaultFilterState ∧
    (filterChanges
        (filterChanges defaultFilterState
          (Sum.inl { summary := "Server error alert", priority := some 9 }) "").2
        (Sum.inl { summary := "Server error alert", priority := some 9 }) "").1 =
      some (Sum.inl { summary := "Server error alert", priority := some 9 }) := by
  refine ⟨by decide, by decide, by decide⟩

/-- Claim C1 (corrected).  Duplicate rejection is driven by the recorded
interaction history, not by delivery: once an interaction on a summary
is recorded (with learning enabled, the default), any summary with the
same non-empty text submitted to the filter is rejected — for every
state, site URL and interaction kind. -/
theorem duplicate_rejected_after_recorded_interaction
    (s : FilterState) (c c' : FChange) (i url : String)
    (hlearn : s.options.enableLearning = true)
    (hsum : c.summary ≠ "") (hsum' : c'.summary = c.summary) :
    filterSingleChange (recordInteraction s c i) c' url = none := by
  -- The freshly recorded entry sits in the last-5 window of the history.
  have hmem :
      ∃ item ∈ jsSliceLast 5 (recordInteraction s c i).interactionHistory,
        item.summary = c.summary := by
    unfold recordInteraction
    rw [if_neg (by simp [hlearn])]
    dsimp only
    rw [updatePrefs_preserves_history]
    dsimp only
    refine ⟨{ summary := c.summary, contentType := determineContentType c,
              priority := c.priority, interaction := i }, ?_, rfl⟩
    split
    · rename_i htrim
      rcases hh : s.interactionHistory with _ | ⟨a, t⟩
      · simp [hh, maxHistoryItems] at htrim
      · simpa using mem_sliceLast_append_last 5 (by norm_num) t _
    · exact mem_sliceLast_append_last 5 (by norm_num) _ _
  -- Hence the second submission is a duplicate.
  have hdup : isDuplicate (recordInteraction s c i) c' = true := by
    obtain ⟨item, hitem, heq⟩ := hmem
    unfold isDuplicate
    rw [if_neg (by rw [hsum']; exact hsum)]
    exact List.any_eq_true.mpr
      ⟨item, hitem, by simp [heq, hsum']⟩
  -- Every branch of `_filterSingleChange` now returns `none`.
  unfold filterSingleChange
  dsimp only
  split
  · rfl
  · split
    · rfl
    · rw [if_pos (by simp [shouldFilterByRules, hdup])]

/-- Witness for `duplicate_rejected_after_recorded_interaction`: after
recording a `viewed` interaction on the accepted
`"Server error alert"` summary, resubmitting it is rejected. -/
theorem duplicate_rejected_after_recorded_interaction_witness :
    defaultFilterState.options.enableLearning = true ∧
    ({ summary := "Server error alert", priority := some 9 } : FChange).summary ≠ "" ∧
    filterSingleChange
        (recordInteraction defaultFilterState
          { summary := "Server error alert", priority := some 9 } "viewed")
        { summary := "Server error alert", priority := some 9 } "" = none :=
  ⟨rfl, by decide,
    duplicate_rejected_after_recorded_interaction defaultFilterState
      { summary := "Server error alert", priority := some 9 }
      { summary := "Server error alert", priority := some 9 } "viewed" ""
      rfl (by decide) rfl⟩

/-! ## Claim C3 -/

/-- Claim C3 (counterexample).  Starting from default preferences
(`chat.minPriority = 4`), recording 20 `chat` interactions of which 15
are dismissals does not raise `chat.minPriority` by exactly 1: the
learning pass reruns after every `recordInteraction` call once the
history holds ≥ 10 entries, so with 5 `viewed` followed by 15
`dismissed` the dismiss-rate window exceeds 0.7 on the last four calls
and the threshold ends at 8, a raise of 4. -/
theorem learning_pass_counterexample :
    defaultFilterState.global.contentTypePreferences.chat.minPriority = 4 ∧
    determineContentType { summary := "message", priority := some 5 } = "chat" ∧
    (recordInteractions defaultFilterState
        (List.replicate 5 (({ summary := "message", priority := some 5 } : FChange), "viewed") ++
         List.replicate 15 (({ summary := "message", priority := some 5 } : FChange), "dismissed"))
      ).global.contentTypePreferences.chat.minPriority ≠ 4 + 1 := by
  refine ⟨by decide, by decide, by decide⟩

/-- Claim C3 (corrected).  The learning pass runs after every recorded
interaction once the history holds at least 10 entries, recomputing over
the most recent 20 and raising `minPriority` by 1 (cap 10) at each pass
whose dismiss-rate exceeds 0.7 — so the 20 `chat` interactions with 15
dismissals (5 `viewed` then 15 `dismissed`) raise `chat.minPriority`
from its default 4 once per each of the four qualifying passes, to 8,
not by exactly 1. -/
theorem learning_pass_raises_threshold_per_pass :
    defaultFilterState.global.contentTypePreferences.chat.minPriority = 4 ∧
    (recordInteractions defaultFilterState
        (List.replicate 5 (({ summary := "message", priority := some 5 } : FChange), "viewed") ++
         List.replicate 15 (({ summary := "message", priority := some 5 } : FChange), "dismissed"))
      ).global.contentTypePreferences.chat.minPriority = 8 := by
  refine ⟨by decide, by decide⟩

/-! ## Claim C7 -/

/-- Claim C7 (counterexample).  `initializePreferences` does not retain
default settings that the stored object lacks below the top level: a
stored object whose `global` carries only `priorityThreshold` replaces
the default global wholesale, and the seven default
`contentTypePreferences` entries are gone after initialization. -/
theorem initialize_preferences_counterexample :
    defaultJSUserPreferences.global.contentTypePreferences =
      some defaultCTPOverrides ∧
    (initializePreferences defaultJSUserPreferences
        (some { global := some { priorityThreshold := some 7 } })
      ).global.contentTypePreferences = none := by
  refine ⟨by decide, by decide⟩

/-- Claim C7 (corrected).  `initializePreferences` merges only at the top
level: a top-level key (`global`, `sites`) absent from the stored object
keeps the default — in particular an absent `global` keeps all seven
default category entries — but a present top-level key replaces the
default value wholesale, and a falsy stored argument leaves the
preferences untouched. -/
theorem initialize_preferences_shallow_merge (stored : StoredPreferences) :
    (stored.global = none →
      (initializePreferences defaultJSUserPreferences (some stored)).global =
          defaultJSUserPreferences.global ∧
        (initializePreferences defaultJSUserPreferences
            (some stored)).global.contentTypePreferences =
          some defaultCTPOverrides) ∧
    (∀ g, stored.global = some g →
      (initializePreferences defaultJSUserPreferences (some stored)).global = g) ∧
    (stored.sites = none →
      (initializePreferences defaultJSUserPreferences (some stored)).sites =
        defaultJSUserPreferences.sites) ∧
    initializePreferences defaultJSUserPreferences none =
      defaultJSUserPreferences := by
  refine ⟨fun hg => ?_, fun g hg => ?_, fun hs => ?_, rfl⟩
  · simp [initializePreferences, hg, defaultJSUserPreferences]
  · simp [initializePreferences, hg]
  · simp [initializePreferences, hs, defaultJSUserPreferences]

/-- Witness for `initialize_preferences_shallow_merge` at a stored
object with no top-level keys: all defaults are retained. -/
theorem initialize_preferences_shallow_merge_witness :
    (({} : StoredPreferences).global = none) ∧
    (initializePreferences defaultJSUserPreferences
        (some {})).global.contentTypePreferences = some defaultCTPOverrides :=
  ⟨rfl, ((initialize_preferences_shallow_merge {}).1 rfl).2⟩

/-! ## Claim C10 -/

/-- Claim C10 (confirmed).  `filterChanges` computes its accept/reject result
without mutating the filter state: the body of `filterChanges` /
`_filterSingleChange` / `_isDuplicate` contains no assignment to
instance state, so the state-passing embedding returns the global and
per-site preferences and the interaction-history ring buffer exactly as
given (only `recordInteraction`/`updatePreferences` produce new
states). -/
theorem filter_changes_pure (s : FilterState)
    (changes : FChange ⊕ List FChange) (url : String) :
    (filterChanges s changes url).2.global = s.global ∧
    (filterChanges s changes url).2.sites = s.sites ∧
    (filterChanges s changes url).2.interactionHistory = s.interactionHistory ∧
    (filterChanges s changes url).2 = s := by
  cases changes <;> exact ⟨rfl, rfl, rfl, rfl⟩

end ENetra
